import Mathlib

/-!
Verification of the bug-fix mining and AI classification pipeline
(the files `gerrit_AI.py`, `AI_check.py`, `utils/menifest_paeser.py`).

The Python code is shallowly embedded: pure string manipulation becomes
Lean functions on `String`, the LLM chat-completion oracle becomes an
explicit `OracleResult` value (a successful reply or a transport
failure), and `try/except` blocks become case analysis on that value.
Python string primitives (`split`, `strip`, `startswith`, slicing,
`join`) are embedded as structurally recursive functions on the
character list of a `String`, so that every definition evaluates inside
the kernel.  The Python truthiness test `not s` on a string is modelled
by `s = ""`.
-/

namespace GerritPipeline

/-! ### Python string primitives -/

/-- The whitespace characters stripped by the Python `str.strip()`. -/
def pyIsSpace (c : Char) : Bool :=
  c == ' ' || c == '\t' || c == '\n' || c == '\r' || c == '\x0b' || c == '\x0c'

/-- Model of the Python `s.strip()`: drop whitespace from both ends. -/
def pyStrip (s : String) : String :=
  String.mk (((s.data.dropWhile pyIsSpace).reverse.dropWhile pyIsSpace).reverse)

/-- Helper for `pySplit`: scan the characters, cutting at `sep`;
`acc` holds the current piece reversed. -/
def pySplitAux (sep : Char) : List Char → List Char → List String
  | [], acc => [String.mk acc.reverse]
  | c :: cs, acc =>
    if c == sep then String.mk acc.reverse :: pySplitAux sep cs []
    else pySplitAux sep cs (c :: acc)

/-- Model of the Python `s.split(sep)` for a one-character separator
(the code only ever splits on `'\n'`).  Splitting the empty string
gives a list holding one empty string, as in Python. -/
def pySplit (sep : Char) (s : String) : List String :=
  pySplitAux sep s.data []

/-- Model of the Python `s.startswith(pre)`. -/
def pyStartsWith (s pre : String) : Bool :=
  pre.data.isPrefixOf s.data

/-- Model of the Python slice `s[1:]`: drop the first character. -/
def pyDrop1 (s : String) : String :=
  String.mk (s.data.drop 1)

/-- Model of the Python `sep.join(xs)`. -/
def pyJoin (sep : String) : List String → String
  | [] => ""
  | [x] => x
  | x :: y :: rest => x ++ sep ++ pyJoin sep (y :: rest)

/-- Scan a character list for the first occurrence of `tag`; return the
suffix that follows it.  This models both the Python substring test
(`tag in s`, via `Option.isSome`) and the anchor point of
`re.search(tag + '(.*)', s)`, which matches at the earliest
position. -/
def afterFirst (tag : List Char) : List Char → Option (List Char)
  | [] => if tag.isEmpty then some [] else none
  | c :: cs =>
    if tag.isPrefixOf (c :: cs) then some ((c :: cs).drop tag.length)
    else afterFirst tag cs

/-- Model of the Python substring containment `sub in s`. -/
def containsSub (s sub : String) : Bool :=
  (afterFirst sub.data s.data).isSome

/-- Character-wise lower casing, for `re.IGNORECASE` matching of the
literal keyword alternation built by `filter_bug_fixes`. -/
def toLowerStr (s : String) : String :=
  String.mk (s.data.map Char.toLower)

/-- Case-insensitive substring containment: the effect of
`re.compile('|'.join(keywords), re.IGNORECASE).search(subject)` for
literal (metacharacter-free) keywords, one keyword at a time. -/
def containsCI (s kw : String) : Bool :=
  containsSub (toLowerStr s) (toLowerStr kw)

/-- Value of a nonempty all-digit character list, `none` otherwise. -/
def digitsVal (cs : List Char) : Option Nat :=
  if cs ≠ [] ∧ cs.all Char.isDigit then
    some (cs.foldl (fun acc c => acc * 10 + (c.toNat - 48)) 0)
  else none

/-- Model of the Python `int(s)` on a string: surrounding whitespace is
stripped, an optional single sign is accepted, and the rest must be
nonempty digits; any other shape raises `ValueError`, modelled as
`none`.  (Numeric-literal underscores, accepted by Python between
digits, are not modelled; no claim involves them.) -/
def pythonInt (s : String) : Option Int :=
  match (pyStrip s).data with
  | '+' :: cs => (digitsVal cs).map Int.ofNat
  | '-' :: cs => (digitsVal cs).map (fun n => -(n : Int))
  | cs => (digitsVal cs).map Int.ofNat

/-! ### PatchSplitter (`_extract_bad_code` / `_extract_good_code`) -/

/-- The accumulation loop of `_extract_bad_code`: keep lines starting
with `-` but not `---`, stripped of the marker. -/
def extractBadLines : List String → List String
  | [] => []
  | line :: rest =>
    if pyStartsWith line "-" && !pyStartsWith line "---" then
      pyDrop1 line :: extractBadLines rest
    else extractBadLines rest

/-- The accumulation loop of `_extract_good_code`: keep lines starting
with `+` but not `+++`, stripped of the marker. -/
def extractGoodLines : List String → List String
  | [] => []
  | line :: rest =>
    if pyStartsWith line "+" && !pyStartsWith line "+++" then
      pyDrop1 line :: extractGoodLines rest
    else extractGoodLines rest

/-- Model of `GerritClient._extract_bad_code`: join the kept removal
lines of `patch.split('\n')` with newlines. -/
def extract_bad_code (patch : String) : String :=
  pyJoin "\n" (extractBadLines (pySplit '\n' patch))

/-- Model of `GerritClient._extract_good_code`: join the kept addition
lines of `patch.split('\n')` with newlines. -/
def extract_good_code (patch : String) : String :=
  pyJoin "\n" (extractGoodLines (pySplit '\n' patch))

/-! ### The chat-completion oracle boundary -/

/-- Outcome of one chat-completion API call: the reply text on success,
or a transport/oracle failure (any exception raised by the call). -/
inductive OracleResult where
  | ok (reply : String)
  | failure
deriving DecidableEq

/-! ### BugClassifier (`_analyze_bug_with_ai`) -/

/-- The effect of `re.search` for a bracket tag followed by a greedy
single-line group, then `.group(1).strip()`, with the empty string when
the marker is absent: take what follows the first occurrence of `tag`,
up to the end of that line, stripped. -/
def extractTag (tag : String) (answer : String) : String :=
  match afterFirst tag.data answer.data with
  | none => ""
  | some rest => pyStrip (String.mk (rest.takeWhile (fun c => c ≠ '\n')))

/-- Model of `GerritClient._analyze_bug_with_ai`: an empty diff
short-circuits to `(False, "", "")` before the API call; an API
exception yields `(False, "", "")`; otherwise the reply is stripped
and parsed with substring and regex matching.  (The change subject
only enters the prompt, so it does not appear in the model.) -/
def analyze_bug_with_ai (diffContent : String) (oracle : OracleResult) :
    Bool × String × String :=
  if diffContent = "" then (false, "", "")
  else
    match oracle with
    | .failure => (false, "", "")
    | .ok reply =>
      let answer := pyStrip reply
      (containsSub answer "[判断]是", extractTag "[类型]" answer,
       extractTag "[描述]" answer)

/-! ### ReviewLoop (`AICodeReviewer` and the row loop of `main`) -/

/-- Model of `AICodeReviewer.first_review`: the stripped oracle reply,
or the token `"错"` when the call raises. -/
def first_review (r : OracleResult) : String :=
  match r with
  | .ok reply => pyStrip reply
  | .failure => "错"

/-- Model of `AICodeReviewer.generate_fixed_code`: the stripped oracle
reply, or the original `bad_code` when the call raises. -/
def generate_fixed_code (r : OracleResult) (bad_code : String) : String :=
  match r with
  | .ok reply => pyStrip reply
  | .failure => bad_code

/-- Model of `AICodeReviewer.second_review`: split the stripped reply
on newlines; the score is `int` of line one, the verdict line two
(defaulting to `"否"` when absent); any exception — the API call
raising or `int` failing — yields `(0, "否")`. -/
def second_review (r : OracleResult) : Int × String :=
  match r with
  | .failure => (0, "否")
  | .ok reply =>
    let result := pySplit '\n' (pyStrip reply)
    match pythonInt (result.headD "") with
    | none => (0, "否")
    | some score => (score, if 1 < result.length then result.getD 1 "" else "否")

/-- The three oracle interactions available to one row of the review
loop. -/
structure RowOracle where
  firstPass : OracleResult
  fixGen : OracleResult
  secondPass : OracleResult
deriving DecidableEq

/-- Which oracle calls a row actually performed, in order. -/
inductive OracleCall where
  | firstPass
  | fixGen
  | secondPass
deriving DecidableEq

/-- The four columns `main` fills in for one processed row. -/
structure RowOutput where
  first_review : String
  ai_code : String
  similarity_score : Int
  suitable_for_training : String
deriving DecidableEq

/-- The body of the row loop in `AI_check.main`, for a row that passed
the NaN skip: run `first_review`; when its result equals `"错"` run
`generate_fixed_code` and `second_review`, otherwise record the
original code, score 100 and verdict `"是"`.  The second component
lists the oracle calls performed. -/
def processRow (o : RowOracle) (bad_code : String) :
    RowOutput × List OracleCall :=
  let firstResult := first_review o.firstPass
  if firstResult = "错" then
    let aiCode := generate_fixed_code o.fixGen bad_code
    let sr := second_review o.secondPass
    ({ first_review := firstResult, ai_code := aiCode,
       similarity_score := sr.1, suitable_for_training := sr.2 },
     [.firstPass, .fixGen, .secondPass])
  else
    ({ first_review := firstResult, ai_code := bad_code,
       similarity_score := 100, suitable_for_training := "是" },
     [.firstPass])

/-! ### CorpusBuilder (`filter_bug_fixes`, `download_bugfix_patches`) -/

/-- One file of a change, as seen by the per-file loop of
`filter_bug_fixes`: its path and the result of
`get_well_formatted_patch` (`none` models the call raising, which the
per-file `try/except` catches and skips). -/
structure FileEntry where
  path : String
  fetched : Option String
deriving DecidableEq

/-- One element of the `valuable_files` list built by
`filter_bug_fixes`. -/
structure ValuableFile where
  path : String
  patch : String
  bug_type : String
  bug_desc : String
  bad_code : String
  good_code : String
deriving DecidableEq

/-- One input change: identifier, number, subject and its files. -/
structure ChangeInput where
  id : String
  number : Nat
  subject : String
  files : List FileEntry
deriving DecidableEq

/-- One element of the `result` list returned by `filter_bug_fixes`. -/
structure ChangeResult where
  change_id : String
  number : Nat
  subject : String
  files : List ValuableFile
  matched_keywords : List String
  url : String
deriving DecidableEq

/-- The per-file body of `filter_bug_fixes`: skip when the patch fetch
raised; extract both halves and skip — before any AI call — when
either strips to empty; otherwise classify and keep the file when the
oracle accepts.  The second component records the patches submitted to
the AI classification call. -/
def processFile (oracle : String → String → OracleResult) (subject : String)
    (f : FileEntry) : Option ValuableFile × List String :=
  match f.fetched with
  | none => (none, [])
  | some patch =>
    let bad_code := extract_bad_code patch
    let good_code := extract_good_code patch
    if pyStrip bad_code = "" ∨ pyStrip good_code = "" then (none, [])
    else
      let res := analyze_bug_with_ai patch (oracle patch subject)
      ((if res.1 then
          some { path := f.path, patch := patch, bug_type := res.2.1,
                 bug_desc := res.2.2, bad_code := bad_code,
                 good_code := good_code }
        else none),
       [patch])

/-- The inner file loop of `filter_bug_fixes` over the files of one
change, accumulating the valuable files and the AI-classified
patches. -/
def processChangeFiles (oracle : String → String → OracleResult)
    (subject : String) : List FileEntry → List ValuableFile × List String
  | [] => ([], [])
  | f :: rest =>
    let r := processFile oracle subject f
    let acc := processChangeFiles oracle subject rest
    ((match r.1 with
      | some v => v :: acc.1
      | none => acc.1),
     r.2 ++ acc.2)

/-- The record appended to `result` by `filter_bug_fixes`.
`matched_keywords` models `list(set(findall(...)))` as the matching
keywords in configuration order (the Python set order is not modelled;
no claim depends on it). -/
def mkChangeResult (host : String) (keywords : List String)
    (chg : ChangeInput) (vs : List ValuableFile) : ChangeResult :=
  { change_id := chg.id, number := chg.number, subject := chg.subject,
    files := vs,
    matched_keywords := keywords.filter (fun kw => containsCI chg.subject kw),
    url := "http://" ++ host ++ "/" ++ toString chg.number }

/-- The outer change loop of `filter_bug_fixes` over the
keyword-matched changes: a change with no valuable file is dropped. -/
def filterGo (host : String) (oracle : String → String → OracleResult)
    (keywords : List String) : List ChangeInput → List ChangeResult × List String
  | [] => ([], [])
  | chg :: rest =>
    let step := processChangeFiles oracle chg.subject chg.files
    let acc := filterGo host oracle keywords rest
    ((if step.1.isEmpty then acc.1
      else mkChangeResult host keywords chg step.1 :: acc.1),
     step.2 ++ acc.2)

/-- Whether the keyword alternation matches a subject (first filtering
stage of `filter_bug_fixes`), for a nonempty list of literal
keywords. -/
def keywordMatch (keywords : List String) (subject : String) : Bool :=
  keywords.any (fun kw => containsCI subject kw)

/-- Model of `GerritClient.filter_bug_fixes`: keyword stage, then the
AI stage over each surviving change.  Returns the accepted change
records and the list of patches submitted to the AI classifier. -/
def filter_bug_fixes (host : String) (oracle : String → String → OracleResult)
    (changes : List ChangeInput) (keywords : List String) :
    List ChangeResult × List String :=
  filterGo host oracle keywords
    (changes.filter (fun c => keywordMatch keywords c.subject))

/-- The patch file name built by `download_bugfix_patches` from the
change number and the path with slashes replaced by underscores. -/
def patchFilename (number : Nat) (path : String) : String :=
  toString number ++ "_" ++
    String.mk (path.data.map (fun c => if c = '/' then '_' else c)) ++ ".patch"

/-- The retry loop of `download_bugfix_patches`, abstracted over
whether the write attempt with a given zero-based index succeeds.
Arguments: the current `retry_count` and the remaining loop budget
(`max_retries` minus `retry_count`).  Returns whether a write
succeeded, together with the `retry_count` values logged by failed
attempts (the final failure message fires when the last of them equals
`max_retries`). -/
def retryWriteAux (ok : Nat → Bool) : Nat → Nat → Bool × List Nat
  | _, 0 => (false, [])
  | retryCount, remaining + 1 =>
    if ok retryCount then (true, [])
    else
      let r := retryWriteAux ok (retryCount + 1) remaining
      (r.1, (retryCount + 1) :: r.2)

/-- The whole `while retry_count < max_retries` write loop for one
file. -/
def retryWrite (ok : Nat → Bool) (maxRetries : Nat) : Bool × List Nat :=
  retryWriteAux ok 0 maxRetries

/-- One row of the dataset file `bugfix_analysis.csv`. -/
structure CsvRow where
  bad_code : String
  good_code : String
  bug_type : String
  bug_analysis : String
  file_path : String
  change_id : String
  change_number : Nat
  change_subject : String
deriving DecidableEq

/-- The record appended to `csv_data` inside the successful write
attempt of `download_bugfix_patches`. -/
def csvRowOf (chg : ChangeResult) (v : ValuableFile) : CsvRow :=
  { bad_code := v.bad_code, good_code := v.good_code, bug_type := v.bug_type,
    bug_analysis := v.bug_desc, file_path := v.path, change_id := chg.change_id,
    change_number := chg.number, change_subject := chg.subject }

/-- The file loop of `download_bugfix_patches` for one change: a CSV
row is appended only when the patch-file write succeeded within the
retry budget; a file whose write is abandoned is skipped and the loop
continues with the next file. -/
def writeFilesGo (wr : String → Nat → Bool) (maxRetries : Nat)
    (chg : ChangeResult) : List ValuableFile → List CsvRow
  | [] => []
  | v :: rest =>
    (if (retryWrite (wr (patchFilename chg.number v.path)) maxRetries).1 then
       [csvRowOf chg v]
     else []) ++ writeFilesGo wr maxRetries chg rest

/-- The `csv_data` accumulated by `download_bugfix_patches` over all
accepted changes, given the per-filename write-attempt outcomes. -/
def buildCsvData (wr : String → Nat → Bool) (maxRetries : Nat)
    (changes : List ChangeResult) : List CsvRow :=
  (changes.map (fun chg => writeFilesGo wr maxRetries chg chg.files)).flatten

/-- The fixed CSV column order of `bugfix_analysis.csv`. -/
def fieldnames : List String :=
  ["bad_code", "good_code", "bug_type", "bug_analysis",
   "file_path", "change_id", "change_number", "change_subject"]

/-- One CSV row rendered in the fixed column order. -/
def rowCells (r : CsvRow) : List String :=
  [r.bad_code, r.good_code, r.bug_type, r.bug_analysis, r.file_path,
   r.change_id, toString r.change_number, r.change_subject]

/-- The dataset file written by `download_bugfix_patches`: header and
rows when `csv_data` is nonempty, no file (`none`) otherwise. -/
def datasetFile (wr : String → Nat → Bool) (maxRetries : Nat)
    (changes : List ChangeResult) : Option (List String × List (List String)) :=
  let rows := buildCsvData wr maxRetries changes
  if rows.isEmpty then none else some (fieldnames, rows.map rowCells)

/-! ### Manifest parser (`utils/menifest_paeser.py`, `MParser.run`)

The XML tree walk is embedded from the already-extracted element lists
(the `remote`, `default` and `project` elements in document order,
attributes as `Option String`); `etree` itself is the external XML
boundary.  The Python `remotes[key]` raising `KeyError`, and the index
into an empty `default` list raising `IndexError`, abort the run:
modelled by an overall `none`. -/

/-- The Python rendering of a value inside an f-string: `None` renders
as the literal string `"None"`. -/
def pyStr : Option String → String
  | none => "None"
  | some s => s

/-- The attributes of a `default` manifest element. -/
structure MDefault where
  remote : Option String
  revision : Option String
deriving DecidableEq

/-- The attributes of a `project` manifest element. -/
structure MProject where
  revision : Option String
  remote : Option String
  name : Option String
deriving DecidableEq

/-- A parsed manifest: the `remote` elements as (name, fetch) attribute
pairs in document order, the `default` elements, and the `project`
elements. -/
structure Manifest where
  remotes : List (Option String × Option String)
  defaults : List MDefault
  projects : List MProject
deriving DecidableEq

/-- Dict lookup in the `remotes` dict built by assignment in document
order: the last binding for a key wins; a missing key is `KeyError`
(`none`). -/
def dictLookup (d : List (Option String × Option String))
    (k : Option String) : Option (Option String) :=
  match d.reverse.find? (fun kv => kv.1 == k) with
  | some kv => some kv.2
  | none => none

/-- One output descriptor appended to `projects` by `MParser.run`. -/
structure ProjDescriptor where
  field : String
  trinityProjectId : Option String
  branch : Option String
  target : String
deriving DecidableEq

/-- The project loop of `MParser.run`: `branch` falls back to the
default revision when the project has none; the fetch URL comes from
the remote of the project or of the default element; `target` is the
f-string rendering of the fetch URL, the project name, the literal
` -b ` and the raw (possibly absent) project revision attribute. -/
def runProjects (remotes : List (Option String × Option String))
    (d : MDefault) (projectId : Option String) :
    List MProject → Option (List ProjDescriptor)
  | [] => some []
  | p :: rest =>
    let rev := p.revision
    let branch := match rev with
      | some r => some r
      | none => d.revision
    match (match p.remote with
           | none => dictLookup remotes d.remote
           | some rn => dictLookup remotes (some rn)) with
    | none => none
    | some fetchUrl =>
      match runProjects remotes d projectId rest with
      | none => none
      | some ds =>
        some ({ field := "1", trinityProjectId := projectId, branch := branch,
                target := pyStr fetchUrl ++ "/" ++ p.name.getD "" ++
                  " -b " ++ pyStr rev } :: ds)

/-- Model of `MParser.run` after XML parsing: take the first `default`
element (`none` when there is none, for `IndexError`), build the
remotes dict, and process every project. -/
def MParser_run (projectId : Option String) (m : Manifest) :
    Option (List ProjDescriptor) :=
  match m.defaults with
  | [] => none
  | d :: _ => runProjects m.remotes d projectId m.projects

/-! ### Concrete inputs used by the witnesses and counterexamples -/

def c1Oracle : String → String → OracleResult :=
  fun _ _ => .ok "[判断]是\n[类型]T\n[描述]D"

def c1File : FileEntry := { path := "f.c", fetched := some "-a\n+b\n" }

def c1Change : ChangeInput :=
  { id := "I1", number := 5, subject := "fix bug", files := [c1File] }

def c1V : ValuableFile :=
  { path := "f.c", patch := "-a\n+b\n", bug_type := "T", bug_desc := "D",
    bad_code := "a", good_code := "b" }

def c3Oracle : RowOracle :=
  { firstPass := .failure, fixGen := .ok "fixed", secondPass := .ok "90\n是" }

def c4Oracle : RowOracle :=
  { firstPass := .ok " 对 ", fixGen := .failure, secondPass := .failure }

def c7V : ValuableFile :=
  { path := "a/b.c", patch := "-x\n+y\n", bug_type := "t", bug_desc := "d",
    bad_code := "x", good_code := "y" }

def c7Chg : ChangeResult :=
  { change_id := "I1", number := 7, subject := "fix bug", files := [c7V],
    matched_keywords := ["bug"], url := "http://h/7" }

def c8V : ValuableFile :=
  { path := "p.c", patch := "-u\n+w\n", bug_type := "t", bug_desc := "d",
    bad_code := "u", good_code := "w" }

def c8Chg : ChangeResult :=
  { change_id := "I2", number := 9, subject := "s", files := [c8V],
    matched_keywords := [], url := "http://h/9" }

def c10Oracle : RowOracle :=
  { firstPass := .ok "对。", fixGen := .failure, secondPass := .failure }

def c9Manifest : Manifest :=
  { remotes := [(some "origin", some "http://example.com")],
    defaults := [{ remote := some "origin", revision := some "main" }],
    projects := [{ revision := none, remote := none, name := some "proj" }] }

/-! ### Theorems -/

theorem extractBadLines_eq_filterMap (ls : List String) :
    extractBadLines ls =
      (ls.filter (fun l => pyStartsWith l "-" && !pyStartsWith l "---")).map
        pyDrop1 := by
  induction ls with
  | nil => rfl
  | cons line rest ih =>
    by_cases h : pyStartsWith line "-" && !pyStartsWith line "---" <;>
      simp [extractBadLines, List.filter_cons, h, ih]

theorem extractGoodLines_eq_filterMap (ls : List String) :
    extractGoodLines ls =
      (ls.filter (fun l => pyStartsWith l "+" && !pyStartsWith l "+++")).map
        pyDrop1 := by
  induction ls with
  | nil => rfl
  | cons line rest ih =>
    by_cases h : pyStartsWith line "+" && !pyStartsWith line "+++" <;>
      simp [extractGoodLines, List.filter_cons, h, ih]

/-- C2: the PatchSplitter before-code is exactly the removal-marked
(not file-header) lines with the marker stripped, joined by newlines;
the after-code is the addition-marked (not file-header) lines; all
other lines are ignored.  The diff `"-int x = 1;\n+int x = 2;\n"`
splits to `"int x = 1;"` and `"int x = 2;"`. -/
theorem patchSplitter_extracts_marked_lines :
    (∀ patch, extract_bad_code patch =
      pyJoin "\n"
        (((pySplit '\n' patch).filter
            (fun l => pyStartsWith l "-" && !pyStartsWith l "---")).map
          pyDrop1))
    ∧ (∀ patch, extract_good_code patch =
      pyJoin "\n"
        (((pySplit '\n' patch).filter
            (fun l => pyStartsWith l "+" && !pyStartsWith l "+++")).map
          pyDrop1))
    ∧ extract_bad_code "-int x = 1;\n+int x = 2;\n" = "int x = 1;"
    ∧ extract_good_code "-int x = 1;\n+int x = 2;\n" = "int x = 2;" :=
  ⟨fun patch => by rw [extract_bad_code, extractBadLines_eq_filterMap],
   fun patch => by rw [extract_good_code, extractGoodLines_eq_filterMap],
   by decide, by decide⟩

theorem processFile_fst_nonempty (oracle : String → String → OracleResult)
    (subject : String) (f : FileEntry) (v : ValuableFile)
    (h : (processFile oracle subject f).1 = some v) :
    pyStrip v.bad_code ≠ "" ∧ pyStrip v.good_code ≠ "" := by
  obtain ⟨fp, fo⟩ := f
  cases fo with
  | none => simp [processFile] at h
  | some patch =>
    simp only [processFile] at h
    split at h
    · simp at h
    · rename_i hc
      push_neg at hc
      split at h
      · rw [Option.some.injEq] at h
        subst h
        exact hc
      · simp at h

theorem processFile_calls_nonempty (oracle : String → String → OracleResult)
    (subject : String) (f : FileEntry) (p : String)
    (h : p ∈ (processFile oracle subject f).2) :
    pyStrip (extract_bad_code p) ≠ "" ∧ pyStrip (extract_good_code p) ≠ "" := by
  obtain ⟨fp, fo⟩ := f
  cases fo with
  | none => simp [processFile] at h
  | some patch =>
    simp only [processFile] at h
    split at h
    · simp at h
    · rename_i hc
      push_neg at hc
      have hp : p = patch := by simpa using h
      subst hp
      exact hc

theorem processChangeFiles_records (oracle : String → String → OracleResult)
    (subject : String) (files : List FileEntry) (v : ValuableFile)
    (h : v ∈ (processChangeFiles oracle subject files).1) :
    pyStrip v.bad_code ≠ "" ∧ pyStrip v.good_code ≠ "" := by
  induction files with
  | nil => simp [processChangeFiles] at h
  | cons f rest ih =>
    simp only [processChangeFiles] at h
    cases hw : (processFile oracle subject f).1 with
    | none => rw [hw] at h; exact ih h
    | some w =>
      rw [hw] at h
      rcases List.mem_cons.mp h with h1 | h2
      · subst h1; exact processFile_fst_nonempty oracle subject f v hw
      · exact ih h2

theorem processChangeFiles_calls (oracle : String → String → OracleResult)
    (subject : String) (files : List FileEntry) (p : String)
    (h : p ∈ (processChangeFiles oracle subject files).2) :
    pyStrip (extract_bad_code p) ≠ "" ∧ pyStrip (extract_good_code p) ≠ "" := by
  induction files with
  | nil => simp [processChangeFiles] at h
  | cons f rest ih =>
    simp only [processChangeFiles] at h
    rcases List.mem_append.mp h with h1 | h2
    · exact processFile_calls_nonempty oracle subject f p h1
    · exact ih h2

theorem filterGo_records (host : String) (oracle : String → String → OracleResult)
    (keywords : List String) (changes : List ChangeInput) (chg : ChangeResult)
    (h : chg ∈ (filterGo host oracle keywords changes).1) :
    ∀ v ∈ chg.files, pyStrip v.bad_code ≠ "" ∧ pyStrip v.good_code ≠ "" := by
  induction changes with
  | nil => simp [filterGo] at h
  | cons c rest ih =>
    simp only [filterGo] at h
    split at h
    · exact ih h
    · rcases List.mem_cons.mp h with h1 | h2
      · subst h1
        intro v hv
        exact processChangeFiles_records oracle c.subject c.files v hv
      · exact ih h2

theorem filterGo_calls (host : String) (oracle : String → String → OracleResult)
    (keywords : List String) (changes : List ChangeInput) (p : String)
    (h : p ∈ (filterGo host oracle keywords changes).2) :
    pyStrip (extract_bad_code p) ≠ "" ∧ pyStrip (extract_good_code p) ≠ "" := by
  induction changes with
  | nil => simp [filterGo] at h
  | cons c rest ih =>
    simp only [filterGo] at h
    rcases List.mem_append.mp h with h1 | h2
    · exact processChangeFiles_calls oracle c.subject c.files p h1
    · exact ih h2

theorem mem_writeFilesGo (wr : String → Nat → Bool) (mr : Nat)
    (chg : ChangeResult) (files : List ValuableFile) (row : CsvRow)
    (h : row ∈ writeFilesGo wr mr chg files) :
    ∃ v ∈ files, row = csvRowOf chg v := by
  induction files with
  | nil => simp [writeFilesGo] at h
  | cons v rest ih =>
    simp only [writeFilesGo] at h
    rcases List.mem_append.mp h with h1 | h2
    · refine ⟨v, List.mem_cons_self v rest, ?_⟩
      split at h1
      · simpa using h1
      · simp at h1
    · obtain ⟨w, hw, hrow⟩ := ih h2
      exact ⟨w, List.mem_cons_of_mem v hw, hrow⟩

theorem mem_buildCsvData (wr : String → Nat → Bool) (mr : Nat)
    (changes : List ChangeResult) (row : CsvRow)
    (h : row ∈ buildCsvData wr mr changes) :
    ∃ chg ∈ changes, ∃ v ∈ chg.files, row = csvRowOf chg v := by
  simp only [buildCsvData, List.mem_flatten, List.mem_map] at h
  obtain ⟨l, ⟨chg, hchg, rfl⟩, hrow⟩ := h
  exact ⟨chg, hchg, mem_writeFilesGo wr mr chg chg.files row hrow⟩

theorem writeFilesGo_mem_of_success (wr : String → Nat → Bool) (mr : Nat)
    (chg : ChangeResult) (files : List ValuableFile) (v : ValuableFile)
    (hv : v ∈ files)
    (hs : (retryWrite (wr (patchFilename chg.number v.path)) mr).1 = true) :
    csvRowOf chg v ∈ writeFilesGo wr mr chg files := by
  induction files with
  | nil => simp at hv
  | cons w rest ih =>
    simp only [writeFilesGo, List.mem_append]
    rcases List.mem_cons.mp hv with h1 | h2
    · subst h1
      exact Or.inl (by simp [hs])
    · exact Or.inr (ih h2)

/-- C1: every `ValuableFile` in the output of `filter_bug_fixes` has
non-empty (after stripping) before- and after-code; every patch that
reaches the AI classification call has non-empty extracted halves (the
empty ones are skipped beforehand); and every row of the dataset
inherits non-empty halves. -/
theorem corpus_records_nonempty (host : String)
    (oracle : String → String → OracleResult) (changes : List ChangeInput)
    (keywords : List String) :
    (∀ chg ∈ (filter_bug_fixes host oracle changes keywords).1,
        ∀ v ∈ chg.files, pyStrip v.bad_code ≠ "" ∧ pyStrip v.good_code ≠ "")
    ∧ (∀ p ∈ (filter_bug_fixes host oracle changes keywords).2,
        pyStrip (extract_bad_code p) ≠ "" ∧ pyStrip (extract_good_code p) ≠ "")
    ∧ (∀ wr mr row,
        row ∈ buildCsvData wr mr (filter_bug_fixes host oracle changes keywords).1 →
        pyStrip row.bad_code ≠ "" ∧ pyStrip row.good_code ≠ "") := by
  refine ⟨?_, ?_, ?_⟩
  · intro chg hchg v hv
    exact filterGo_records host oracle keywords _ chg hchg v hv
  · intro p hp
    exact filterGo_calls host oracle keywords _ p hp
  · intro wr mr row hrow
    obtain ⟨chg, hchg, v, hv, rfl⟩ := mem_buildCsvData wr mr _ row hrow
    exact filterGo_records host oracle keywords _ chg hchg v hv

theorem corpus_records_nonempty_witness :
    pyStrip c1V.bad_code ≠ "" ∧ pyStrip c1V.good_code ≠ "" :=
  (corpus_records_nonempty "h" c1Oracle [c1Change] ["bug"]).1
    (mkChangeResult "h" ["bug"] c1Change [c1V]) (by decide) c1V (by decide)

/-- C7 counterexample: an accepted `BugRecord` (a `ValuableFile` of an
accepted change) whose patch-file write fails all `max_retries`
attempts is not written to the dataset at all — here no dataset file is
produced even though a record was accepted, refuting the claim that
every accepted record is written as one row. -/
theorem dataset_drops_unwritten_record :
    c7V ∈ c7Chg.files ∧
    datasetFile (fun _ _ => false) 3 [c7Chg] = none := by decide

/-- C7 (amended): every accepted record whose patch-file write succeeds
within the retry budget is written as one dataset row; every dataset
row comes from an accepted record; the dataset has the fixed column
order `bad_code, good_code, bug_type, bug_analysis, file_path,
change_id, change_number, change_subject`; and when `csv_data` is empty
— in particular when no record is accepted — no dataset file is
written. -/
theorem dataset_rows_are_written_records (wr : String → Nat → Bool)
    (mr : Nat) (changes : List ChangeResult) :
    (∀ chg ∈ changes, ∀ v ∈ chg.files,
        (retryWrite (wr (patchFilename chg.number v.path)) mr).1 = true →
        csvRowOf chg v ∈ buildCsvData wr mr changes)
    ∧ (∀ row ∈ buildCsvData wr mr changes,
        ∃ chg ∈ changes, ∃ v ∈ chg.files, row = csvRowOf chg v)
    ∧ (buildCsvData wr mr changes ≠ [] →
        datasetFile wr mr changes =
          some (fieldnames, (buildCsvData wr mr changes).map rowCells))
    ∧ (buildCsvData wr mr changes = [] → datasetFile wr mr changes = none) := by
  refine ⟨?_, ?_, ?_, ?_⟩
  · intro chg hchg v hv hs
    simp only [buildCsvData, List.mem_flatten]
    exact ⟨writeFilesGo wr mr chg chg.files, List.mem_map_of_mem _ hchg,
      writeFilesGo_mem_of_success wr mr chg chg.files v hv hs⟩
  · intro row hrow
    exact mem_buildCsvData wr mr changes row hrow
  · intro hne
    simp [datasetFile, List.isEmpty_iff, hne]
  · intro he
    simp [datasetFile, List.isEmpty_iff, he]

theorem dataset_rows_are_written_records_witness :
    csvRowOf c7Chg c7V ∈ buildCsvData (fun _ _ => true) 3 [c7Chg] :=
  (dataset_rows_are_written_records (fun _ _ => true) 3 [c7Chg]).1
    c7Chg (by decide) c7V (by decide) (by decide)

theorem retryWriteAux_allFail (ok : Nat → Bool) (hfail : ∀ i, ok i = false) :
    ∀ remaining rc,
      retryWriteAux ok rc remaining = (false, List.range' (rc + 1) remaining) := by
  intro remaining
  induction remaining with
  | zero => intro rc; rfl
  | succ n ih =>
    intro rc
    simp only [retryWriteAux, hfail rc, Bool.false_eq_true, if_false]
    rw [ih (rc + 1), List.range'_succ]

theorem retryWriteAux_length_le (ok : Nat → Bool) :
    ∀ remaining rc, (retryWriteAux ok rc remaining).2.length ≤ remaining := by
  intro remaining
  induction remaining with
  | zero => intro rc; simp [retryWriteAux]
  | succ n ih =>
    intro rc
    by_cases h : ok rc <;> simp [retryWriteAux, h]
    exact ih (rc + 1)

theorem range'_one_getLast (mr : Nat) (h : 0 < mr) :
    (List.range' 1 mr).getLast? = some mr := by
  obtain ⟨k, rfl⟩ : ∃ k, mr = k + 1 := ⟨mr - 1, by omega⟩
  rw [List.range'_concat, List.getLast?_concat]
  simp [Nat.add_comm]

/-- C8: the patch-file write loop attempts at most `max_retries`
writes; when every attempt fails it makes exactly `max_retries`
attempts, logging each with its attempt count (the last log carries
`max_retries`, the condition of the final-failure message), returns
without raising, and the file loop simply continues with the next
file. -/
theorem write_retry_bounded (ok ok2 : Nat → Bool) (mr : Nat) (hmr : 0 < mr)
    (hfail : ∀ i, ok i = false) (wr : String → Nat → Bool)
    (chg : ChangeResult) (v : ValuableFile) (vs : List ValuableFile)
    (hw : ∀ i, wr (patchFilename chg.number v.path) i = false) :
    retryWrite ok mr = (false, List.range' 1 mr)
    ∧ (retryWrite ok mr).2.length = mr
    ∧ (retryWrite ok mr).2.getLast? = some mr
    ∧ (retryWrite ok2 mr).2.length ≤ mr
    ∧ writeFilesGo wr mr chg (v :: vs) = writeFilesGo wr mr chg vs := by
  have hall : retryWrite ok mr = (false, List.range' 1 mr) :=
    retryWriteAux_allFail ok hfail mr 0
  have hwv : retryWrite (wr (patchFilename chg.number v.path)) mr =
      (false, List.range' 1 mr) :=
    retryWriteAux_allFail (wr (patchFilename chg.number v.path)) hw mr 0
  refine ⟨hall, ?_, ?_, retryWriteAux_length_le ok2 mr 0, ?_⟩
  · rw [hall]; simp [List.length_range']
  · rw [hall]; exact range'_one_getLast mr hmr
  · simp [writeFilesGo, hwv]

theorem write_retry_bounded_witness :
    retryWrite (fun _ => false) 3 = (false, List.range' 1 3)
    ∧ (retryWrite (fun _ => false) 3).2.length = 3
    ∧ (retryWrite (fun _ => false) 3).2.getLast? = some 3
    ∧ (retryWrite (fun _ => true) 3).2.length ≤ 3
    ∧ writeFilesGo (fun _ _ => false) 3 c8Chg [c8V] =
        writeFilesGo (fun _ _ => false) 3 c8Chg [] :=
  write_retry_bounded (fun _ => false) (fun _ => true) 3 (by decide)
    (fun _ => rfl) (fun _ _ => false) c8Chg c8V [] (fun _ => rfl)

/-- C3: when the FirstPass oracle call fails, `first_review` returns
the token `"错"`, and the row is routed to the erroneous branch — the
FixGeneration and SecondPass calls are performed, never the clean
branch. -/
theorem firstPass_failure_routes_erroneous (o : RowOracle) (bad_code : String)
    (h : o.firstPass = .failure) :
    first_review o.firstPass = "错" ∧
    (processRow o bad_code).2 = [.firstPass, .fixGen, .secondPass] := by
  constructor <;> simp [processRow, first_review, h]

theorem firstPass_failure_routes_erroneous_witness :
    first_review c3Oracle.firstPass = "错" ∧
    (processRow c3Oracle "x").2 = [.firstPass, .fixGen, .secondPass] :=
  firstPass_failure_routes_erroneous c3Oracle "x" rfl

/-- C4: when FirstPass answers "not erroneous" (the token `"对"`), the
row gets `ai_code` equal to the original `bad_code`,
`similarity_score` exactly 100 and suitability `"是"`, and no
FixGeneration or SecondPass call is performed. -/
theorem firstPass_clean_branch (o : RowOracle) (bad_code reply : String)
    (h1 : o.firstPass = .ok reply) (h2 : pyStrip reply = "对") :
    (processRow o bad_code).1 =
      { first_review := "对", ai_code := bad_code, similarity_score := 100,
        suitable_for_training := "是" } ∧
    (processRow o bad_code).2 = [.firstPass] := by
  have hf : first_review o.firstPass = "对" := by rw [h1]; simpa [first_review] using h2
  have hne : ("对" : String) ≠ "错" := by decide
  constructor <;> simp [processRow, hf, hne]

theorem firstPass_clean_branch_witness :
    (processRow c4Oracle "orig").1 =
      { first_review := "对", ai_code := "orig", similarity_score := 100,
        suitable_for_training := "是" } ∧
    (processRow c4Oracle "orig").2 = [.firstPass] :=
  firstPass_clean_branch c4Oracle "orig" " 对 " rfl (by decide)

/-- C5: `second_review` parses the score from line one and the verdict
from line two of the stripped reply, a missing second line defaults the
verdict to `"否"`, and an oracle failure or non-integer first line
yields `(0, "否")`; the reply `"85\n是"` parses to `(85, "是")` and
`"abc"` to `(0, "否")`.  (`second_review` is a total function: it
never raises.) -/
theorem second_review_parsing :
    second_review .failure = (0, "否")
    ∧ second_review (.ok "85\n是") = (85, "是")
    ∧ second_review (.ok "abc") = (0, "否")
    ∧ (∀ reply, pythonInt ((pySplit '\n' (pyStrip reply)).headD "") = none →
        second_review (.ok reply) = (0, "否"))
    ∧ (∀ reply score,
        pythonInt ((pySplit '\n' (pyStrip reply)).headD "") = some score →
        (pySplit '\n' (pyStrip reply)).length ≤ 1 →
        second_review (.ok reply) = (score, "否")) := by
  refine ⟨by decide, by decide, by decide, ?_, ?_⟩
  · intro reply h
    simp only [second_review]
    rw [h]
  · intro reply score h hlen
    have hnl : ¬ (1 < (pySplit '\n' (pyStrip reply)).length) := by omega
    simp only [second_review]
    rw [h, if_neg hnl]

theorem second_review_parsing_witness :
    second_review (.ok " zz ") = (0, "否") ∧
    second_review (.ok "77") = (77, "否") :=
  ⟨second_review_parsing.2.2.2.1 " zz " (by decide),
   second_review_parsing.2.2.2.2 "77" 77 (by decide) (by decide)⟩

/-- C6: `_analyze_bug_with_ai` absorbs every transport/oracle failure
into `(False, "", "")`, and a reply missing the `[类型]` or `[描述]`
marker yields the empty string for that field rather than an error.
(The function is total in the model: it never raises to its caller.) -/
theorem bug_classifier_fail_safe :
    (∀ diff, analyze_bug_with_ai diff .failure = (false, "", ""))
    ∧ (∀ diff reply, afterFirst "[类型]".data (pyStrip reply).data = none →
        (analyze_bug_with_ai diff (.ok reply)).2.1 = "")
    ∧ (∀ diff reply, afterFirst "[描述]".data (pyStrip reply).data = none →
        (analyze_bug_with_ai diff (.ok reply)).2.2 = "") := by
  refine ⟨?_, ?_, ?_⟩
  · intro diff
    by_cases hd : diff = "" <;> simp [analyze_bug_with_ai, hd]
  · intro diff reply h
    by_cases hd : diff = "" <;> simp [analyze_bug_with_ai, hd, extractTag, h]
  · intro diff reply h
    by_cases hd : diff = "" <;> simp [analyze_bug_with_ai, hd, extractTag, h]

theorem bug_classifier_fail_safe_witness :
    analyze_bug_with_ai "d" .failure = (false, "", "")
    ∧ (analyze_bug_with_ai "d" (.ok "[判断]是")).2.1 = ""
    ∧ (analyze_bug_with_ai "d" (.ok "[判断]是")).2.2 = "" :=
  ⟨bug_classifier_fail_safe.1 "d",
   bug_classifier_fail_safe.2.1 "d" "[判断]是" (by decide),
   bug_classifier_fail_safe.2.2 "d" "[判断]是" (by decide)⟩

/-- C10: the fix-generation branch is entered exactly when the stripped
FirstPass reply equals the single token `"错"`; any other reply — even
one outside the two-value vocabulary, such as `"对。"` — routes the row
to the clean branch with the original code, score 100 and `"是"`. -/
theorem firstPass_branch_iff_token (o : RowOracle) (bad_code reply : String)
    (h : o.firstPass = .ok reply) :
    ((processRow o bad_code).2 = [.firstPass, .fixGen, .secondPass] ↔
      pyStrip reply = "错")
    ∧ (pyStrip reply ≠ "错" →
        (processRow o bad_code).1 =
          { first_review := pyStrip reply, ai_code := bad_code,
            similarity_score := 100, suitable_for_training := "是" } ∧
        (processRow o bad_code).2 = [.firstPass]) := by
  have hf : first_review o.firstPass = pyStrip reply := by rw [h, first_review]
  by_cases hc : pyStrip reply = "错" <;> simp [processRow, hf, hc]

theorem firstPass_branch_iff_token_witness :
    (processRow c10Oracle "x").1 =
      { first_review := pyStrip "对。", ai_code := "x",
        similarity_score := 100, suitable_for_training := "是" } ∧
    (processRow c10Oracle "x").2 = [.firstPass] :=
  (firstPass_branch_iff_token c10Oracle "x" "对。" rfl).2 (by decide)

/-- C9: on a project with no revision attribute under a default with
revision `"main"`, the output `branch` inherits `"main"`, but the
branch encoded in `target` is the literal `"None"` — the f-string uses
the raw project attribute instead of the computed fallback, so the
fetch-URL/branch pair in `target` does not inherit the default
revision as the spec states. -/
theorem manifest_target_renders_none :
    MParser_run none c9Manifest =
      some [{ field := "1", trinityProjectId := none, branch := some "main",
              target := "http://example.com/proj -b None" }] := by decide

end GerritPipeline
